import Mathlib

/-!
Verification development for the file-type dispatch and recursive extraction
pipeline of the repository (source: src/services/geminiService.ts).

The embedding is shallow: the TypeScript functions become Lean functions.
External collaborators that the specification explicitly treats as opaque
(the Gemini multimodal service, the DOMParser HTML/XML facilities, and the
third-party Word/Excel decoders) are modelled as oracle fields of an
environment record or as constructors of the payload type, so that every
theorem quantifies over their behaviour.  Errors, which the source raises
as exceptions carrying a message, are represented with Except String.
-/

/-- Entry of a ZIP directory listing: path within the archive, directory
marker flag, byte size, and the entry payload. -/
structure ZEntry (α : Type) where
  path : String
  dir : Bool
  esize : Nat
  data : α

/-- Payload of one input, as seen by the decoders of the pipeline.
The source manipulates browser File/Blob objects; the embedding records,
for each payload, which decoder can succeed on it: raw text readable by
readFileAsText, a Word package readable by the opaque mammoth decoder, a
spreadsheet package readable by the opaque XLSX decoder, or a well-formed
ZIP container with its entry listing.  A payload that is none of these is
represented by raw text (reading arbitrary bytes as text always yields
some string in the browser). -/
inductive FileData : Type where
  | raw (text : String)
  | wordDoc (text : String)
  | workbook (sheets : List (String × String))
  | zip (entries : List (ZEntry FileData))

/-- Input unit of the dispatch: file name, declared media type, byte size
and payload (models the browser File object consumed by processFile). -/
structure InputFile where
  name : String
  type : String
  size : Nat
  data : FileData

/-- Environment of opaque external collaborators: the Gemini credential
(process.env.API_KEY), the Gemini generateContent call (given transport
payload and media type, returns text or fails), the DOMParser body-text
extraction used for HTML inputs, and the DOMParser a:t text-run listing
used for slide XML. -/
structure Env where
  apiKey : String
  gemini : String → String → Except String String
  htmlText : String → String
  xmlRuns : String → List String

/-- Model of the JavaScript String.endsWith test used by processFile. -/
def jsEndsWith (s post : String) : Bool :=
  post.data.isSuffixOf s.data

/-- Translation of isGeminiSupported: membership of the declared media
type in the fixed list supported by inlineData. -/
def isGeminiSupported (mimeType : String) : Bool :=
  let supported : List String := [
    ("application/pdf"),
    ("image/png"), ("image/jpeg"), ("image/webp"), ("image/heic"), ("image/heif"),
    ("audio/mpeg"), ("audio/mp3"), ("audio/wav"), ("audio/aac"), ("audio/flac"), ("audio/x-m4a"),
    ("video/mp4"), ("video/mpeg"), ("video/mov"), ("video/avi"), ("video/x-flv"), ("video/mpg"),
    ("video/webm"), ("video/wmv"), ("video/3gpp")]
  supported.contains mimeType

/-- Strategy tags of the dispatch, one per branch of processFile, in the
order the source tests them. -/
inductive Strategy : Type where
  | archive
  | remoteMultimodal
  | wordDocument
  | spreadsheet
  | presentationPackage
  | plainOrHtmlText
  | archiveLikeBook
  | unsupported
deriving DecidableEq

/-- Branch conditions of processFile, in source order: ZIP, Gemini-native
media types, DOCX, XLSX, PPTX, plain or HTML or RTF text, EPUB, otherwise
unsupported.  The EPUB branch is handled identically to ZIP by the source
(both call processZipFile). -/
def classify (mimeType fileName : String) : Strategy :=
  if mimeType = ("application/zip") ∨ jsEndsWith fileName (".zip") then .archive
  else if isGeminiSupported mimeType then .remoteMultimodal
  else if mimeType = ("application/vnd.openxmlformats-officedocument.wordprocessingml.document")
      ∨ jsEndsWith fileName (".docx") then .wordDocument
  else if mimeType = ("application/vnd.openxmlformats-officedocument.spreadsheetml.sheet")
      ∨ jsEndsWith fileName (".xlsx") then .spreadsheet
  else if mimeType = ("application/vnd.openxmlformats-officedocument.presentationml.presentation")
      ∨ jsEndsWith fileName (".pptx") then .presentationPackage
  else if mimeType = ("text/plain") ∨ mimeType = ("text/html") ∨ mimeType = ("application/rtf")
      ∨ jsEndsWith fileName (".txt") ∨ jsEndsWith fileName (".md") then .plainOrHtmlText
  else if mimeType = ("application/epub+zip") ∨ jsEndsWith fileName (".epub") then .archiveLikeBook
  else .unsupported

/-- Translation of extractWithGemini.  The pair component counts the
generateContent invocations actually issued (0 or 1), so that pre-flight
local failures are distinguishable from service round trips.  Every
failure, including the local missing-credential check and the
empty-response check, is wrapped by the catch block of the source into a
message of the shape given here; an underlying message that is the empty
string is replaced by the Unknown error fallback of the source. -/
def extractWithGemini (env : Env) (fileBase64 mimeType : String) :
    Except String String × Nat :=
  if env.apiKey = ("") then
    (.error (("Lỗi trích xuất AI: ") ++
      ("API Key is missing. Please checking your environment configuration.")), 0)
  else
    match env.gemini fileBase64 mimeType with
    | .error msg =>
      (.error (("Lỗi trích xuất AI: ") ++
        (if msg = ("") then ("Unknown error") else msg)), 1)
    | .ok text =>
      if text = ("") then
        (.error (("Lỗi trích xuất AI: ") ++ ("Gemini returned an empty response.")), 1)
      else (.ok text, 1)

/-- Translation of getMimeFromExt: the six-key extension map with the
octet-stream fallback. -/
def getMimeFromExt (ext : String) : String :=
  let map : List (String × String) := [
    (("png"), ("image/png")), (("jpg"), ("image/jpeg")), (("pdf"), ("application/pdf")),
    (("txt"), ("text/plain")), (("xml"), ("text/xml")), (("json"), ("application/json"))]
  match map.find? (fun kv => kv.1 == ext) with
  | some kv => kv.2
  | none => ("application/octet-stream")

/-- Model of filename.split(Chr(46)).pop().toLowerCase(): the segment of
the name after its last dot, or the whole name when it has no dot,
lowercased. -/
def extOf (fileName : String) : String :=
  let cs := fileName.data
  let seg := if ('.') ∈ cs then (cs.reverse.takeWhile (fun c => c ≠ ('.'))).reverse else cs
  ⟨seg.map Char.toLower⟩

/-- Reading a payload as text (FileReader.readAsText and the JSZip string
read).  Raw payloads yield their text; reading the bytes of a binary
package as text yields unspecified garbage, which the model fixes as the
empty string since no claim depends on it. -/
def dataAsText : FileData → String
  | .raw text => text
  | _ => ("")

/-- Transport encoding of a payload for the remote call
(readFileAsBase64).  The remote service is an opaque oracle, so the model
uses a canonical tagging rather than byte-level base64. -/
def dataAsBase64 : FileData → String
  | .raw t => ("b64:") ++ t
  | .wordDoc _ => ("b64:worddoc")
  | .workbook _ => ("b64:workbook")
  | .zip _ => ("b64:zip")

/-- Translation of readFileAsText applied to an input file. -/
def readFileAsText (f : InputFile) : String := dataAsText f.data

/-- Model of the opaque mammoth.extractRawText capability: succeeds with
the raw text exactly on Word packages. -/
def mammothExtractRawText : FileData → Except String String
  | .wordDoc text => .ok text
  | _ => .error ("mammoth could not read the document package.")

/-- Model of the opaque XLSX.read capability: succeeds exactly on
spreadsheet packages, returning the ordered sheets, each with its name
and its sheet_to_csv rendering. -/
def xlsxRead : FileData → Except String (List (String × String))
  | .workbook sheets => .ok sheets
  | _ => .error ("XLSX could not read the workbook package.")

/-- Numeric value of a digit run (parseInt on a nonempty decimal digit
string). -/
def digitsVal (ds : List Char) : Nat :=
  ds.foldl (fun n c => n * 10 + (c.toNat - ('0').toNat)) 0

/-- Match of the filter regex ppt/slides/slide digits .xml starting at
this exact position: the literal head, then a nonempty maximal digit run,
then the literal .xml tail (the regex engine backtracking over a greedy
digit run followed by a literal dot is equivalent to the maximal run). -/
def slideFilterAt (cs : List Char) : Bool :=
  ("ppt/slides/slide").data.isPrefixOf cs &&
    (let after := cs.drop 16
     let ds := after.takeWhile Char.isDigit
     !ds.isEmpty && (".xml").data.isPrefixOf (after.drop ds.length))

/-- Whether an unanchored pattern matches at some position of the
character list (the JavaScript match test tries every start index). -/
def matchesAnywhere (pat : List Char → Bool) : List Char → Bool
  | [] => pat []
  | c :: rest => pat (c :: rest) || matchesAnywhere pat rest

/-- Truthiness of f.match on the slide filter regex. -/
def containsSlidePath (s : String) : Bool :=
  matchesAnywhere slideFilterAt s.data

/-- Match of the key regex slide (captured digits) .xml at this exact
position, returning the captured number. -/
def slideKeyAt (cs : List Char) : Option Nat :=
  if ("slide").data.isPrefixOf cs then
    let after := cs.drop 5
    let ds := after.takeWhile Char.isDigit
    if !ds.isEmpty && (".xml").data.isPrefixOf (after.drop ds.length) then some (digitsVal ds)
    else none
  else none

/-- Leftmost match of the key regex over the string. -/
def findSlideKey : List Char → Option Nat
  | [] => none
  | c :: rest =>
    match slideKeyAt (c :: rest) with
    | some n => some n
    | none => findSlideKey rest

/-- Sort key of a slide path: parseInt of the captured digits of the
leftmost match, with the source fallback of 0 when there is no match. -/
def slideKey (s : String) : Nat := (findSlideKey s.data).getD 0

/-- Filtered and sorted slide listing of processPptxAsZip.  The source
sorts with the comparator numA - numB through Array.prototype.sort, which
is a stable ascending sort by the numeric key; insertionSort is that
stable sort. -/
def slideFilesSorted (names : List String) : List String :=
  List.insertionSort (fun a b => slideKey a ≤ slideKey b) (names.filter containsSlidePath)

/-- Rendering of one slide: the a:t text runs joined with trailing
spaces; an all-whitespace result becomes the blank-page marker. -/
def renderSlide (env : Env) (xmlText : String) : String :=
  let slideText := (env.xmlRuns xmlText).foldl (fun acc r => acc ++ r ++ (" ")) ("")
  if slideText.trim = ("") then ("(Trang trống)\n") else slideText ++ ("\n")

/-- Translation of processPptxAsZip: open the package as a ZIP, list the
entry paths, filter and numerically sort the slide XML paths, render each
slide in order, and fall back to the no-content marker when the
accumulated text is empty; a package that fails to open raises the PPTX
read error. -/
def processPptxAsZip (env : Env) (f : InputFile) : Except String String × Nat :=
  match f.data with
  | .zip entries =>
    let names := entries.map (fun e => e.path)
    let slides := slideFilesSorted names
    let fullText := slides.foldl (fun acc p =>
      let xmlText :=
        match entries.find? (fun e => e.path == p) with
        | some e => dataAsText e.data
        | none => ("")
      acc ++ renderSlide env xmlText) ("")
    (.ok (if fullText = ("") then ("(Không tìm thấy nội dung văn bản trong slide)") else fullText), 0)
  | _ => (.error ("Lỗi đọc file PPTX."), 0)

/-- Synthetic input built by processZipFile for one archive entry: the
entry path as name, the media type inferred from the extension only, the
entry size and payload. -/
def subFileOf (q : ZEntry FileData) : InputFile :=
  { name := q.path, type := getMimeFromExt (extOf q.path), size := q.esize, data := q.data }

mutual

/-- Translation of processFile, the dispatch orchestrator: route by the
classifier and run the selected strategy.  The pair component counts the
remote generateContent invocations transitively issued. -/
def processFile (env : Env) (f : InputFile) : Except String String × Nat :=
  match classify f.type f.name with
  | .archive => processZipFile env f
  | .remoteMultimodal =>
    if f.size > 20 * 1024 * 1024 then
      (.error ("File quá lớn (>20MB) để xử lý trực tiếp trên trình duyệt. Vui lòng nén hoặc cắt nhỏ file."), 0)
    else extractWithGemini env (dataAsBase64 f.data) f.type
  | .wordDocument =>
    match mammothExtractRawText f.data with
    | .ok t => (.ok t, 0)
    | .error e => (.error e, 0)
  | .spreadsheet =>
    match xlsxRead f.data with
    | .ok sheets =>
      (.ok (sheets.foldl (fun text s =>
        text ++ ("--- Sheet: ") ++ s.1 ++ (" ---\n") ++ s.2 ++ ("\n\n")) ("")), 0)
    | .error e => (.error e, 0)
  | .presentationPackage => processPptxAsZip env f
  | .plainOrHtmlText =>
    let text := readFileAsText f
    if f.type = ("text/html") then (.ok (env.htmlText text), 0) else (.ok text, 0)
  | .archiveLikeBook => processZipFile env f
  | .unsupported => (.error (("Định dạng file không được hỗ trợ: ") ++ f.type), 0)
termination_by 2 * sizeOf f.data + 1
decreasing_by all_goals (simp_wf <;> omega)

/-- Translation of processZipFile: open the archive (a payload that is
not a well-formed ZIP makes loadAsync reject, and the rejection
propagates), then emit the archive header line and the per-entry blocks
in listing order. -/
def processZipFile (env : Env) (f : InputFile) : Except String String × Nat :=
  match h : f.data with
  | .zip entries =>
    let r := processEntries env entries
    (.ok (("--- ARCHIVE: ") ++ f.name ++ (" ---\n") ++ r.1), r.2)
  | _ => (.error ("Corrupted zip: cannot load archive data."), 0)
termination_by 2 * sizeOf f.data
decreasing_by all_goals (simp_wf <;> simp [h] <;> omega)

/-- Contribution of one archive entry to the combined text: nothing for a
directory marker; otherwise the FILE header line followed by the
recursive extraction result, or by the per-entry placeholder line when
the recursive call fails. -/
def entryBlock (env : Env) (q : ZEntry FileData) : String × Nat :=
  if q.dir then (("") , 0)
  else
    match processFile env (subFileOf q) with
    | (.ok t, n) => (("\n--- FILE: ") ++ q.path ++ (" ---\n") ++ t, n)
    | (.error e, n) =>
      (("\n--- FILE: ") ++ q.path ++ (" ---\n") ++
        ("(Không thể trích xuất file này trong ZIP: ") ++ e ++ (")\n"), n)
termination_by 2 * sizeOf q
decreasing_by all_goals (simp_wf <;> rcases q with ⟨p, d, s, dat⟩ <;> simp [subFileOf] <;> omega)

/-- Sequential loop of processZipFile over the entry listing. -/
def processEntries (env : Env) (l : List (ZEntry FileData)) : String × Nat :=
  match l with
  | [] => (("") , 0)
  | q :: rest =>
    let hb := entryBlock env q
    let tb := processEntries env rest
    (hb.1 ++ tb.1, hb.2 + tb.2)
termination_by 2 * sizeOf l
decreasing_by all_goals (simp_wf <;> omega)

end

/-! Helper notions and unfolding lemmas. -/

/-- Containment of a block x somewhere inside a combined text t. -/
def textContains (t x : String) : Prop := ∃ a b, t = a ++ x ++ b

theorem textContains_of_head (x b : String) : textContains (x ++ b) x :=
  ⟨(""), b, by rw [String.empty_append]⟩

theorem textContains_trans {t x y : String} (h1 : textContains t x) (h2 : textContains x y) :
    textContains t y := by
  obtain ⟨a, b, rfl⟩ := h1
  obtain ⟨c, d, rfl⟩ := h2
  exact ⟨a ++ c, d ++ b, by simp [String.append_assoc]⟩

/-- Two suffix patterns of which neither is a suffix of the other cannot
both be suffixes of the same name. -/
theorem jsEndsWith_excl {s : String} (a b : String)
    (h : jsEndsWith s a = true) (hab : ¬ (a.data <:+ b.data)) (hba : ¬ (b.data <:+ a.data)) :
    jsEndsWith s b = false := by
  rw [jsEndsWith, List.isSuffixOf_iff_suffix] at h
  by_contra hb
  rw [jsEndsWith, Bool.not_eq_false, List.isSuffixOf_iff_suffix] at hb
  rcases List.suffix_or_suffix_of_suffix h hb with h1 | h1
  exacts [hab h1, hba h1]

/-- A name whose last four characters are .txt has extension txt. -/
theorem extOf_of_endsWith_txt {p : String} (h : jsEndsWith p (".txt") = true) :
    extOf p = ("txt") := by
  rw [jsEndsWith, List.isSuffixOf_iff_suffix] at h
  obtain ⟨q, hq⟩ := h
  rw [show (".txt").data = [('.'), ('t'), ('x'), ('t')] from rfl] at hq
  simp only [extOf, ← hq]
  rw [if_pos (by simp)]
  have htw : ((q ++ [('.'), ('t'), ('x'), ('t')]).reverse.takeWhile (fun c => c ≠ ('.')))
      = [('t'), ('x'), ('t')] := by
    simp [List.reverse_append]
  rw [htw]
  rfl

theorem isGeminiSupported_ne_zip {m : String} (h : isGeminiSupported m = true) :
    ¬ m = ("application/zip") := by
  intro he
  rw [he] at h
  exact absurd h (by decide)

theorem classify_archive_of {mt nm : String}
    (h : mt = ("application/zip") ∨ jsEndsWith nm (".zip") = true) :
    classify mt nm = .archive := by
  unfold classify
  rw [if_pos h]

theorem classify_remote_of {m n : String} (h : isGeminiSupported m = true)
    (hz : jsEndsWith n (".zip") = false) : classify m n = .remoteMultimodal := by
  have h1 : ¬ (m = ("application/zip") ∨ jsEndsWith n (".zip") = true) := by
    rintro (he | he)
    · exact isGeminiSupported_ne_zip h he
    · rw [hz] at he
      exact Bool.false_ne_true he
  unfold classify
  rw [if_neg h1, if_pos h]

theorem classify_word_of {m n : String} (hmz : ¬ m = ("application/zip"))
    (hg : isGeminiSupported m = false) (hd : jsEndsWith n (".docx") = true) :
    classify m n = .wordDocument := by
  have hz : jsEndsWith n (".zip") = false :=
    jsEndsWith_excl (".docx") (".zip") hd (by decide) (by decide)
  have h1 : ¬ (m = ("application/zip") ∨ jsEndsWith n (".zip") = true) := by
    rintro (he | he)
    · exact hmz he
    · rw [hz] at he
      exact Bool.false_ne_true he
  have h2 : ¬ isGeminiSupported m = true := by
    rw [hg]
    exact Bool.false_ne_true
  unfold classify
  rw [if_neg h1, if_neg h2, if_pos (Or.inr hd)]

theorem classify_sheet_of {n : String} (hx : jsEndsWith n (".xlsx") = true) :
    classify ("application/vnd.openxmlformats-officedocument.spreadsheetml.sheet") n
      = .spreadsheet := by
  have hz : jsEndsWith n (".zip") = false :=
    jsEndsWith_excl (".xlsx") (".zip") hx (by decide) (by decide)
  have hd : jsEndsWith n (".docx") = false :=
    jsEndsWith_excl (".xlsx") (".docx") hx (by decide) (by decide)
  unfold classify
  rw [if_neg (by simp [hz]), if_neg (by decide), if_neg (by simp [hd]), if_pos (Or.inl rfl)]

theorem classify_textPlain_of_txt {n : String} (ht : jsEndsWith n (".txt") = true) :
    classify ("text/plain") n = .plainOrHtmlText := by
  have hz : jsEndsWith n (".zip") = false :=
    jsEndsWith_excl (".txt") (".zip") ht (by decide) (by decide)
  have hd : jsEndsWith n (".docx") = false :=
    jsEndsWith_excl (".txt") (".docx") ht (by decide) (by decide)
  have hx : jsEndsWith n (".xlsx") = false :=
    jsEndsWith_excl (".txt") (".xlsx") ht (by decide) (by decide)
  have hp : jsEndsWith n (".pptx") = false :=
    jsEndsWith_excl (".txt") (".pptx") ht (by decide) (by decide)
  unfold classify
  rw [if_neg (by simp [hz]), if_neg (by decide), if_neg (by simp [hd]),
    if_neg (by simp [hx]), if_neg (by simp [hp]), if_pos (Or.inl rfl)]

/-! Unfolding lemmas for the dispatch, one per strategy the claims need. -/

theorem processFile_archive (env : Env) (f : InputFile)
    (h : classify f.type f.name = .archive) :
    processFile env f = processZipFile env f := by
  rw [processFile, h]

theorem processFile_remote (env : Env) (f : InputFile)
    (h : classify f.type f.name = .remoteMultimodal) :
    processFile env f =
      (if f.size > 20 * 1024 * 1024 then
        (.error ("File quá lớn (>20MB) để xử lý trực tiếp trên trình duyệt. Vui lòng nén hoặc cắt nhỏ file."), 0)
      else extractWithGemini env (dataAsBase64 f.data) f.type) := by
  rw [processFile, h]

theorem processFile_spreadsheet (env : Env) (f : InputFile)
    (h : classify f.type f.name = .spreadsheet)
    (sheets : List (String × String)) (hd : f.data = .workbook sheets) :
    processFile env f =
      (.ok (sheets.foldl (fun text s =>
        text ++ ("--- Sheet: ") ++ s.1 ++ (" ---\n") ++ s.2 ++ ("\n\n")) ("")), 0) := by
  rw [processFile, h, hd]
  rfl

theorem processFile_plainText (env : Env) (f : InputFile)
    (h : classify f.type f.name = .plainOrHtmlText) :
    processFile env f =
      (if f.type = ("text/html") then (.ok (env.htmlText (readFileAsText f)), 0)
       else (.ok (readFileAsText f), 0)) := by
  rw [processFile, h]

theorem processFile_pptx (env : Env) (f : InputFile)
    (h : classify f.type f.name = .presentationPackage) :
    processFile env f = processPptxAsZip env f := by
  rw [processFile, h]

theorem processFile_unsupported (env : Env) (f : InputFile)
    (h : classify f.type f.name = .unsupported) :
    processFile env f = (.error (("Định dạng file không được hỗ trợ: ") ++ f.type), 0) := by
  rw [processFile, h]

theorem processZipFile_zip (env : Env) (nm tp : String) (sz : Nat)
    (entries : List (ZEntry FileData)) :
    processZipFile env ⟨nm, tp, sz, .zip entries⟩ =
      (.ok (("--- ARCHIVE: ") ++ nm ++ (" ---\n") ++ (processEntries env entries).1),
        (processEntries env entries).2) := by
  rw [processZipFile]

theorem processEntries_nil (env : Env) : processEntries env [] = (("") , 0) := by
  rw [processEntries]

theorem processEntries_cons (env : Env) (q : ZEntry FileData) (rest : List (ZEntry FileData)) :
    processEntries env (q :: rest) =
      ((entryBlock env q).1 ++ (processEntries env rest).1,
        (entryBlock env q).2 + (processEntries env rest).2) := by
  rw [processEntries]

theorem entryBlock_ok (env : Env) (q : ZEntry FileData) (hdir : q.dir = false)
    (t : String) (k : Nat) (h : processFile env (subFileOf q) = (.ok t, k)) :
    entryBlock env q = (("\n--- FILE: ") ++ q.path ++ (" ---\n") ++ t, k) := by
  rw [entryBlock, if_neg (by simp [hdir]), h]

theorem entryBlock_err (env : Env) (q : ZEntry FileData) (hdir : q.dir = false)
    (e : String) (k : Nat) (h : processFile env (subFileOf q) = (.error e, k)) :
    entryBlock env q =
      (("\n--- FILE: ") ++ q.path ++ (" ---\n") ++
        ("(Không thể trích xuất file này trong ZIP: ") ++ e ++ (")\n"), k) := by
  rw [entryBlock, if_neg (by simp [hdir]), h]

/-- Every entry of a listing contributes its block to the sequential
output of the entry loop. -/
theorem processEntries_mem (env : Env) {q : ZEntry FileData} :
    ∀ {l : List (ZEntry FileData)}, q ∈ l →
      ∃ a b, (processEntries env l).1 = a ++ (entryBlock env q).1 ++ b := by
  intro l hl
  induction l with
  | nil => exact absurd hl (List.not_mem_nil q)
  | cons p rest ih =>
    rw [processEntries_cons]
    rcases List.mem_cons.mp hl with rfl | hmem
    · exact ⟨(""), (processEntries env rest).1, by rw [String.empty_append]⟩
    · obtain ⟨a, b, hab⟩ := ih hmem
      exact ⟨(entryBlock env p).1 ++ a, b, by simp [hab, String.append_assoc]⟩

/-- With a configured credential, the adapter issues exactly one
generateContent call, whatever the service answers. -/
theorem extractWithGemini_calls (env : Env) (b m : String) (hk : ¬ env.apiKey = ("")) :
    (extractWithGemini env b m).2 = 1 := by
  rw [extractWithGemini, if_neg hk]
  cases env.gemini b m with
  | error msg => rfl
  | ok text =>
    dsimp only
    split
    · rfl
    · rfl

/-! Witness fixtures: concrete environments used to instantiate theorems. -/

/-- Concrete environment with a configured credential, a service that
answers a fixed text, identity HTML extraction and no XML text runs. -/
def env0 : Env :=
  { apiKey := ("k"), gemini := fun _ _ => .ok ("G"),
    htmlText := fun s => s, xmlRuns := fun _ => [] }

/-- Concrete environment with a missing credential. -/
def envNoKey : Env :=
  { apiKey := (""), gemini := fun _ _ => .ok ("G"),
    htmlText := fun s => s, xmlRuns := fun _ => [] }

/-! Claim C1. -/

/-- C1, counterexample: application/pdf is in the fixed remote-supported
set, yet a file named scan.zip with that media type is classified as
Archive, not RemoteMultimodal, because the ZIP name rule is tested
first.  The claim as stated (RemoteMultimodal for every file name) is
therefore false. -/
theorem c1_counterexample :
    isGeminiSupported ("application/pdf") = true
    ∧ classify ("application/pdf") ("scan.zip") = Strategy.archive
    ∧ Strategy.archive ≠ Strategy.remoteMultimodal :=
  ⟨by decide, by decide, by decide⟩

/-- C1 (amended): for every media type in the fixed remote-supported set
and every file name that does not end in .zip, classification returns
RemoteMultimodal. -/
theorem c1_remote_classification (m n : String) (hm : isGeminiSupported m = true)
    (hz : jsEndsWith n (".zip") = false) : classify m n = Strategy.remoteMultimodal :=
  classify_remote_of hm hz

/-- C1 witness: the amended statement at a concrete supported media type
and name. -/
theorem c1_witness :
    isGeminiSupported ("image/png") = true
    ∧ jsEndsWith ("photo.bin") (".zip") = false
    ∧ classify ("image/png") ("photo.bin") = Strategy.remoteMultimodal :=
  ⟨by decide, by decide,
    c1_remote_classification ("image/png") ("photo.bin") (by decide) (by decide)⟩

/-! Claim C4. -/

/-- C4: for every declared media type that matches no media-type rule of
the classifier (not the ZIP type, not in the remote-supported set) and
every name ending in .docx, classification selects WordDocument, so the
extension rules are reachable independently of the declared media
type. -/
theorem c4_extension_reachable (m n : String) (hmz : ¬ m = ("application/zip"))
    (hg : isGeminiSupported m = false) (hd : jsEndsWith n (".docx") = true) :
    classify m n = Strategy.wordDocument :=
  classify_word_of hmz hg hd

/-- C4 witness: the empty media type with the name report.docx. -/
theorem c4_witness :
    (¬ ("") = ("application/zip"))
    ∧ isGeminiSupported ("") = false
    ∧ jsEndsWith ("report.docx") (".docx") = true
    ∧ classify ("") ("report.docx") = Strategy.wordDocument :=
  ⟨by decide, by decide, by decide,
    c4_extension_reachable ("") ("report.docx") (by decide) (by decide) (by decide)⟩

/-! Claim C9. -/

/-- C9: the extension map of archive entries has exactly the six listed
keys with the listed values; every other extension (in particular jpeg,
mp3, mp4, html, webp) falls back to application/octet-stream, which is
not in the remote-supported set, so such entries are never routed to the
remote extractor by media type. -/
theorem c9_mime_map :
    (∀ ext, ext ∉ ([("png"), ("jpg"), ("pdf"), ("txt"), ("xml"), ("json")] : List String) →
        getMimeFromExt ext = ("application/octet-stream")
        ∧ isGeminiSupported (getMimeFromExt ext) = false)
    ∧ getMimeFromExt ("png") = ("image/png")
    ∧ getMimeFromExt ("jpg") = ("image/jpeg")
    ∧ getMimeFromExt ("pdf") = ("application/pdf")
    ∧ getMimeFromExt ("txt") = ("text/plain")
    ∧ getMimeFromExt ("xml") = ("text/xml")
    ∧ getMimeFromExt ("json") = ("application/json")
    ∧ getMimeFromExt ("jpeg") = ("application/octet-stream")
    ∧ getMimeFromExt ("mp3") = ("application/octet-stream")
    ∧ getMimeFromExt ("mp4") = ("application/octet-stream")
    ∧ getMimeFromExt ("html") = ("application/octet-stream")
    ∧ getMimeFromExt ("webp") = ("application/octet-stream") := by
  refine ⟨?_, by decide, by decide, by decide, by decide, by decide, by decide,
    by decide, by decide, by decide, by decide, by decide⟩
  intro ext hmem
  simp only [List.mem_cons, List.not_mem_nil, or_false, not_or] at hmem
  obtain ⟨h1, h2, h3, h4, h5, h6⟩ := hmem
  have hq : getMimeFromExt ext = ("application/octet-stream") := by
    simp only [getMimeFromExt]
    rw [List.find?_cons_of_neg _ (by intro hbe; simp only [beq_iff_eq] at hbe; exact h1 hbe.symm),
      List.find?_cons_of_neg _ (by intro hbe; simp only [beq_iff_eq] at hbe; exact h2 hbe.symm),
      List.find?_cons_of_neg _ (by intro hbe; simp only [beq_iff_eq] at hbe; exact h3 hbe.symm),
      List.find?_cons_of_neg _ (by intro hbe; simp only [beq_iff_eq] at hbe; exact h4 hbe.symm),
      List.find?_cons_of_neg _ (by intro hbe; simp only [beq_iff_eq] at hbe; exact h5 hbe.symm),
      List.find?_cons_of_neg _ (by intro hbe; simp only [beq_iff_eq] at hbe; exact h6 hbe.symm)]
    rfl
  exact ⟨hq, by rw [hq]; decide⟩

/-- C9 witness: the fallback clause applied to the jpeg extension. -/
theorem c9_witness :
    (("jpeg") ∉ ([("png"), ("jpg"), ("pdf"), ("txt"), ("xml"), ("json")] : List String))
    ∧ (getMimeFromExt ("jpeg") = ("application/octet-stream")
        ∧ isGeminiSupported (getMimeFromExt ("jpeg")) = false) :=
  ⟨by decide, c9_mime_map.1 ("jpeg") (by decide)⟩

/-! Claim C10. -/

/-- C10: every failure of the remote extractor adapter, including the
local missing-credential check and the empty-response check, carries a
message that is the fixed Vietnamese prefix followed by the underlying
message (with the Unknown error fallback when the underlying message is
the empty string). -/
theorem c10_error_prefix (env : Env) (b m e : String) (k : Nat)
    (h : extractWithGemini env b m = (.error e, k)) :
    ∃ u, e = ("Lỗi trích xuất AI: ") ++ u
      ∧ (u = ("API Key is missing. Please checking your environment configuration.")
        ∨ u = ("Gemini returned an empty response.")
        ∨ ∃ msg, env.gemini b m = .error msg
            ∧ u = (if msg = ("") then ("Unknown error") else msg)) := by
  by_cases hk : env.apiKey = ("")
  · have hx : extractWithGemini env b m =
        (.error (("Lỗi trích xuất AI: ") ++
          ("API Key is missing. Please checking your environment configuration.")), 0) := by
      simp [extractWithGemini, hk]
    rw [hx] at h
    simp only [Prod.mk.injEq, Except.error.injEq] at h
    exact ⟨_, h.1.symm, Or.inl rfl⟩
  · cases hg : env.gemini b m with
    | error msg =>
      have hx : extractWithGemini env b m =
          (.error (("Lỗi trích xuất AI: ") ++
            (if msg = ("") then ("Unknown error") else msg)), 1) := by
        simp [extractWithGemini, hk, hg]
      rw [hx] at h
      simp only [Prod.mk.injEq, Except.error.injEq] at h
      exact ⟨_, h.1.symm, Or.inr (Or.inr ⟨msg, rfl, rfl⟩)⟩
    | ok text =>
      by_cases ht : text = ("")
      · have hx : extractWithGemini env b m =
            (.error (("Lỗi trích xuất AI: ") ++ ("Gemini returned an empty response.")), 1) := by
          simp [extractWithGemini, hk, hg, ht]
        rw [hx] at h
        simp only [Prod.mk.injEq, Except.error.injEq] at h
        exact ⟨_, h.1.symm, Or.inr (Or.inl rfl)⟩
      · have hx : extractWithGemini env b m = (.ok text, 1) := by
          simp [extractWithGemini, hk, hg, ht]
        rw [hx] at h
        simp at h

/-- C10 witness: the missing-credential failure of the concrete
environment without a key. -/
theorem c10_witness :
    extractWithGemini envNoKey ("payload") ("image/png") =
      (.error (("Lỗi trích xuất AI: ") ++
        ("API Key is missing. Please checking your environment configuration.")), 0)
    ∧ ∃ u, (("Lỗi trích xuất AI: ") ++
        ("API Key is missing. Please checking your environment configuration."))
        = ("Lỗi trích xuất AI: ") ++ u
      ∧ (u = ("API Key is missing. Please checking your environment configuration.")
        ∨ u = ("Gemini returned an empty response.")
        ∨ ∃ msg, envNoKey.gemini ("payload") ("image/png") = .error msg
            ∧ u = (if msg = ("") then ("Unknown error") else msg)) :=
  ⟨by rfl, c10_error_prefix envNoKey ("payload") ("image/png") _ 0 (by rfl)⟩

/-! Claim C5. -/

/-- C5: for every remote-eligible input (supported media type, name not
captured by the ZIP rule), the 20 MiB ceiling is exact and pre-flight: at
exactly 20 times 1024 times 1024 bytes the dispatch hands the file to the
remote adapter (which, with a configured credential, issues exactly one
service call), while even one byte more fails with the size-exceeded
error and a transitive service-call count of zero. -/
theorem c5_size_ceiling (env : Env) (f : InputFile)
    (hsup : isGeminiSupported f.type = true) (hz : jsEndsWith f.name (".zip") = false) :
    (f.size = 20 * 1024 * 1024 →
      processFile env f = extractWithGemini env (dataAsBase64 f.data) f.type
      ∧ (¬ env.apiKey = ("") → (processFile env f).2 = 1))
    ∧ (f.size > 20 * 1024 * 1024 →
      processFile env f =
        (.error ("File quá lớn (>20MB) để xử lý trực tiếp trên trình duyệt. Vui lòng nén hoặc cắt nhỏ file."), 0)) := by
  have hc := classify_remote_of hsup hz
  rw [processFile_remote env f hc]
  constructor
  · intro hsz
    rw [if_neg (by omega)]
    exact ⟨rfl, fun hk => extractWithGemini_calls env _ _ hk⟩
  · intro hsz
    rw [if_pos hsz]

/-- C5 witness: a PDF of exactly the ceiling size is handed to the remote
adapter of the concrete environment. -/
theorem c5_witness :
    isGeminiSupported ("application/pdf") = true
    ∧ jsEndsWith ("big.pdf") (".zip") = false
    ∧ ((20 * 1024 * 1024 = 20 * 1024 * 1024 →
        processFile env0 ⟨("big.pdf"), ("application/pdf"), 20 * 1024 * 1024, .raw ("p")⟩
          = extractWithGemini env0 (dataAsBase64 (.raw ("p"))) ("application/pdf")
        ∧ (¬ env0.apiKey = ("") →
            (processFile env0 ⟨("big.pdf"), ("application/pdf"), 20 * 1024 * 1024, .raw ("p")⟩).2 = 1))
      ∧ (20 * 1024 * 1024 > 20 * 1024 * 1024 →
        processFile env0 ⟨("big.pdf"), ("application/pdf"), 20 * 1024 * 1024, .raw ("p")⟩ =
          (.error ("File quá lớn (>20MB) để xử lý trực tiếp trên trình duyệt. Vui lòng nén hoặc cắt nhỏ file."), 0))) :=
  ⟨by decide, by decide,
    c5_size_ceiling env0 ⟨("big.pdf"), ("application/pdf"), 20 * 1024 * 1024, .raw ("p")⟩
      (by decide) (by decide)⟩

/-! Claim C2. -/

/-- C2: for every archive whose container opens successfully (the payload
is a well-formed ZIP) and that the dispatch routes to the archive
strategy, if the recursive extraction of one entry fails, the overall
outcome is still success, the combined text contains the literal
placeholder line built from that entry error, and the extracted content
of every other successful entry is still contained in the combined
text. -/
theorem c2_archive_isolation (env : Env) (nm mt : String) (sz : Nat)
    (pre post : List (ZEntry FileData)) (bad : ZEntry FileData)
    (hroute : mt = ("application/zip") ∨ jsEndsWith nm (".zip") = true)
    (hdir : bad.dir = false) (e : String) (k : Nat)
    (hbad : processFile env (subFileOf bad) = (.error e, k)) :
    ∃ T N, processFile env ⟨nm, mt, sz, .zip (pre ++ bad :: post)⟩ = (.ok T, N)
      ∧ textContains T (("(Không thể trích xuất file này trong ZIP: ") ++ e ++ (")\n"))
      ∧ ∀ q ∈ pre ++ post, q.dir = false →
          ∀ t m, processFile env (subFileOf q) = (.ok t, m) → textContains T t := by
  have hcls : classify mt nm = .archive := classify_archive_of hroute
  refine ⟨("--- ARCHIVE: ") ++ nm ++ (" ---\n") ++ (processEntries env (pre ++ bad :: post)).1,
    (processEntries env (pre ++ bad :: post)).2, ?_, ?_, ?_⟩
  · rw [processFile_archive env _ hcls, processZipFile_zip]
  · have hmem : bad ∈ pre ++ bad :: post :=
      List.mem_append_right _ (List.mem_cons_self bad post)
    obtain ⟨a, b, hab⟩ := processEntries_mem env hmem
    rw [entryBlock_err env bad hdir e k hbad] at hab
    exact ⟨(("--- ARCHIVE: ") ++ nm ++ (" ---\n")) ++ a ++ (("\n--- FILE: ") ++ bad.path ++ (" ---\n")), b,
      by rw [hab]; simp [String.append_assoc]; try rfl⟩
  · intro q hq hqdir t m hok
    have hmem : q ∈ pre ++ bad :: post := by
      rcases List.mem_append.mp hq with h1 | h1
      · exact List.mem_append_left _ h1
      · exact List.mem_append_right _ (List.mem_cons_of_mem _ h1)
    obtain ⟨a, b, hab⟩ := processEntries_mem env hmem
    rw [entryBlock_ok env q hqdir t m hok] at hab
    exact ⟨(("--- ARCHIVE: ") ++ nm ++ (" ---\n")) ++ a ++ (("\n--- FILE: ") ++ q.path ++ (" ---\n")), b,
      by rw [hab]; simp [String.append_assoc]; try rfl⟩

/-- C2 witness: a three-entry archive whose middle entry has an
unsupported format keeps the other two entries and gains the placeholder
line. -/
theorem c2_witness :
    processFile env0 (subFileOf ⟨("bad.bin"), false, 2, .raw ("x")⟩)
      = (.error ("Định dạng file không được hỗ trợ: application/octet-stream"), 0)
    ∧ ∃ T N,
        processFile env0 ⟨("files.zip"), ("application/zip"), 6,
          .zip ([⟨("a.txt"), false, 2, .raw ("ONE")⟩] ++
            (⟨("bad.bin"), false, 2, .raw ("x")⟩ : ZEntry FileData) ::
              [⟨("c.txt"), false, 2, .raw ("THREE")⟩])⟩ = (.ok T, N)
      ∧ textContains T (("(Không thể trích xuất file này trong ZIP: ") ++
          ("Định dạng file không được hỗ trợ: application/octet-stream") ++ (")\n"))
      ∧ ∀ q ∈ [(⟨("a.txt"), false, 2, .raw ("ONE")⟩ : ZEntry FileData)] ++
            [⟨("c.txt"), false, 2, .raw ("THREE")⟩], q.dir = false →
          ∀ t m, processFile env0 (subFileOf q) = (.ok t, m) → textContains T t :=
  ⟨by rw [processFile_unsupported env0 _ (by decide)]; rfl,
    c2_archive_isolation env0 ("files.zip") ("application/zip") 6
      [⟨("a.txt"), false, 2, .raw ("ONE")⟩] [⟨("c.txt"), false, 2, .raw ("THREE")⟩]
      ⟨("bad.bin"), false, 2, .raw ("x")⟩ (Or.inl rfl) rfl
      ("Định dạng file không được hỗ trợ: application/octet-stream") 0
      (by rw [processFile_unsupported env0 _ (by decide)]; rfl)⟩

/-! Claim C3. -/

/-- C3: for every ZIP archive containing an entry that is itself a ZIP
archive containing a .txt entry with raw text, the dispatch expands both
levels recursively and the outer combined text contains the inner text
content. -/
theorem c3_nested_archive (env : Env) (oname omime : String) (osz : Nat)
    (pre post ipre ipost : List (ZEntry FileData))
    (ipath : String) (isz : Nat) (tpath : String) (tsz : Nat) (s : String)
    (hroute : omime = ("application/zip") ∨ jsEndsWith oname (".zip") = true)
    (hip : jsEndsWith ipath (".zip") = true)
    (htp : jsEndsWith tpath (".txt") = true) :
    ∃ T N,
      processFile env ⟨oname, omime, osz,
        .zip (pre ++ (⟨ipath, false, isz,
          .zip (ipre ++ (⟨tpath, false, tsz, .raw s⟩ : ZEntry FileData) :: ipost)⟩ : ZEntry FileData)
            :: post)⟩ = (.ok T, N)
      ∧ textContains T s := by
  have hctxt : classify (subFileOf (⟨tpath, false, tsz, .raw s⟩ : ZEntry FileData)).type
      (subFileOf (⟨tpath, false, tsz, .raw s⟩ : ZEntry FileData)).name = .plainOrHtmlText := by
    show classify (getMimeFromExt (extOf tpath)) tpath = _
    rw [extOf_of_endsWith_txt htp]
    exact classify_textPlain_of_txt htp
  have hptxt : processFile env (subFileOf (⟨tpath, false, tsz, .raw s⟩ : ZEntry FileData))
      = (.ok s, 0) := by
    rw [processFile_plainText env _ hctxt]
    have hty : (subFileOf (⟨tpath, false, tsz, .raw s⟩ : ZEntry FileData)).type = ("text/plain") := by
      show getMimeFromExt (extOf tpath) = _
      rw [extOf_of_endsWith_txt htp]
      rfl
    rw [hty, if_neg (by decide)]
    rfl
  have hcinn : classify
      (subFileOf (⟨ipath, false, isz,
        .zip (ipre ++ (⟨tpath, false, tsz, .raw s⟩ : ZEntry FileData) :: ipost)⟩ : ZEntry FileData)).type
      (subFileOf (⟨ipath, false, isz,
        .zip (ipre ++ (⟨tpath, false, tsz, .raw s⟩ : ZEntry FileData) :: ipost)⟩ : ZEntry FileData)).name
      = .archive :=
    classify_archive_of (Or.inr hip)
  have hpinn : processFile env
      (subFileOf (⟨ipath, false, isz,
        .zip (ipre ++ (⟨tpath, false, tsz, .raw s⟩ : ZEntry FileData) :: ipost)⟩ : ZEntry FileData))
      = (.ok (("--- ARCHIVE: ") ++ ipath ++ (" ---\n") ++
          (processEntries env (ipre ++ (⟨tpath, false, tsz, .raw s⟩ : ZEntry FileData) :: ipost)).1),
        (processEntries env (ipre ++ (⟨tpath, false, tsz, .raw s⟩ : ZEntry FileData) :: ipost)).2) := by
    rw [processFile_archive env _ hcinn]
    exact processZipFile_zip env ipath _ isz _
  have hcout : classify omime oname = .archive := classify_archive_of hroute
  refine ⟨("--- ARCHIVE: ") ++ oname ++ (" ---\n") ++
      (processEntries env (pre ++ (⟨ipath, false, isz,
        .zip (ipre ++ (⟨tpath, false, tsz, .raw s⟩ : ZEntry FileData) :: ipost)⟩ : ZEntry FileData)
          :: post)).1,
    (processEntries env (pre ++ (⟨ipath, false, isz,
        .zip (ipre ++ (⟨tpath, false, tsz, .raw s⟩ : ZEntry FileData) :: ipost)⟩ : ZEntry FileData)
          :: post)).2, ?_, ?_⟩
  · rw [processFile_archive env _ hcout, processZipFile_zip]
  · obtain ⟨a1, b1, h1⟩ := processEntries_mem env
      (List.mem_append_right pre (List.mem_cons_self _ post))
    rw [entryBlock_ok env _ rfl _ _ hpinn] at h1
    obtain ⟨a2, b2, h2⟩ := processEntries_mem env
      (List.mem_append_right ipre (List.mem_cons_self _ ipost))
    rw [entryBlock_ok env _ rfl _ _ hptxt] at h2
    have t0 : textContains (("--- ARCHIVE: ") ++ oname ++ (" ---\n") ++
        (processEntries env (pre ++ (⟨ipath, false, isz,
          .zip (ipre ++ (⟨tpath, false, tsz, .raw s⟩ : ZEntry FileData) :: ipost)⟩ : ZEntry FileData)
            :: post)).1)
        ((processEntries env (pre ++ (⟨ipath, false, isz,
          .zip (ipre ++ (⟨tpath, false, tsz, .raw s⟩ : ZEntry FileData) :: ipost)⟩ : ZEntry FileData)
            :: post)).1) :=
      ⟨("--- ARCHIVE: ") ++ oname ++ (" ---\n"), (""), by rw [String.append_empty]⟩
    have t1 := textContains_trans t0 ⟨a1, b1, h1⟩
    have t2 := textContains_trans t1
      (⟨("\n--- FILE: ") ++ ipath ++ (" ---\n"), (""), by rw [String.append_empty]⟩ :
        textContains _ (("--- ARCHIVE: ") ++ ipath ++ (" ---\n") ++
          (processEntries env (ipre ++ (⟨tpath, false, tsz, .raw s⟩ : ZEntry FileData) :: ipost)).1))
    have t3 := textContains_trans t2
      (⟨("--- ARCHIVE: ") ++ ipath ++ (" ---\n"), (""), by rw [String.append_empty]⟩ :
        textContains _
          ((processEntries env (ipre ++ (⟨tpath, false, tsz, .raw s⟩ : ZEntry FileData) :: ipost)).1))
    have t4 := textContains_trans t3 ⟨a2, b2, h2⟩
    exact textContains_trans t4
      ⟨("\n--- FILE: ") ++ tpath ++ (" ---\n"), (""), by rw [String.append_empty]⟩

/-- C3 witness: a concrete two-level archive recovering the inner text
HELLO. -/
theorem c3_witness :
    ((("") : String) = ("application/zip") ∨ jsEndsWith ("outer.zip") (".zip") = true)
    ∧ jsEndsWith ("inner.zip") (".zip") = true
    ∧ jsEndsWith ("note.txt") (".txt") = true
    ∧ ∃ T N,
        processFile env0 ⟨("outer.zip"), (""), 0,
          .zip ([] ++ (⟨("inner.zip"), false, 0,
            .zip ([] ++ (⟨("note.txt"), false, 0, .raw ("HELLO")⟩ : ZEntry FileData) :: [])⟩ :
              ZEntry FileData) :: [])⟩ = (.ok T, N)
      ∧ textContains T ("HELLO") :=
  ⟨Or.inr (by decide), by decide, by decide,
    c3_nested_archive env0 ("outer.zip") ("") 0 [] [] [] []
      ("inner.zip") 0 ("note.txt") 0 ("HELLO")
      (Or.inr (by decide)) (by decide) (by decide)⟩

/-! Presentation-package lemmas. -/

/-- Unfolding of processPptxAsZip on a package that opens as a ZIP. -/
theorem processPptxAsZip_zip (env : Env) (nm tp : String) (sz : Nat)
    (entries : List (ZEntry FileData)) :
    processPptxAsZip env ⟨nm, tp, sz, .zip entries⟩ =
      (.ok (
        (fun fullText => if fullText = ("") then ("(Không tìm thấy nội dung văn bản trong slide)") else fullText)
        ((slideFilesSorted (entries.map (fun e => e.path))).foldl (fun acc p =>
          acc ++ renderSlide env
            (match entries.find? (fun e => e.path == p) with
             | some e => dataAsText e.data
             | none => (""))) (""))), 0) := rfl

/-- Every rendered slide line is nonempty: a slide contributes its text
or the blank-page marker, never the empty string. -/
theorem renderSlide_ne_empty (env : Env) (x : String) : ¬ renderSlide env x = ("") := by
  simp only [renderSlide]
  intro h
  by_cases ht : (((env.xmlRuns x).foldl (fun acc r => acc ++ r ++ (" ")) ("")).trim = (""))
  · rw [if_pos ht] at h
    exact absurd h (by decide)
  · rw [if_neg ht] at h
    have hd := congrArg String.data h
    rw [String.data_append] at hd
    simp at hd

instance slideKeyLeTotal : IsTotal String (fun a b => slideKey a ≤ slideKey b) :=
  ⟨fun a b => Nat.le_total (slideKey a) (slideKey b)⟩

instance slideKeyLeTrans : IsTrans String (fun a b => slideKey a ≤ slideKey b) :=
  ⟨fun _ _ _ hab hbc => Nat.le_trans hab hbc⟩

/-! Claim C6. -/

/-- C6: the slide listing processed by the presentation extractor is the
pattern-filtered entry listing sorted by the numeric slide index (sorted
and a permutation of the filter); on slides named slide2, slide10, slide1
the resulting order is 1, 2, 10 (numeric, not lexicographic), and the
extractor concatenates the rendered slides in exactly that order whatever
the slide contents and the XML oracle are. -/
theorem c6_slide_order :
    (∀ names : List String,
        List.Sorted (fun a b => slideKey a ≤ slideKey b) (slideFilesSorted names)
        ∧ (slideFilesSorted names).Perm (names.filter containsSlidePath))
    ∧ slideFilesSorted
        [("ppt/slides/slide2.xml"), ("ppt/slides/slide10.xml"), ("ppt/slides/slide1.xml")]
      = [("ppt/slides/slide1.xml"), ("ppt/slides/slide2.xml"), ("ppt/slides/slide10.xml")]
    ∧ ∀ (env : Env) (nm tp : String) (sz : Nat) (x1 x2 x10 : String),
        processPptxAsZip env ⟨nm, tp, sz,
          .zip [⟨("ppt/slides/slide2.xml"), false, 0, .raw x2⟩,
                ⟨("ppt/slides/slide10.xml"), false, 0, .raw x10⟩,
                ⟨("ppt/slides/slide1.xml"), false, 0, .raw x1⟩]⟩
          = (.ok (renderSlide env x1 ++ renderSlide env x2 ++ renderSlide env x10), 0) := by
  refine ⟨fun names => ⟨List.sorted_insertionSort _ _, List.perm_insertionSort _ _⟩, by decide, ?_⟩
  intro env nm tp sz x1 x2 x10
  rw [processPptxAsZip_zip]
  have hs : slideFilesSorted
      [("ppt/slides/slide2.xml"), ("ppt/slides/slide10.xml"), ("ppt/slides/slide1.xml")]
      = [("ppt/slides/slide1.xml"), ("ppt/slides/slide2.xml"), ("ppt/slides/slide10.xml")] := by
    decide
  simp only [List.map]
  rw [hs]
  simp only [List.foldl, List.find?, dataAsText,
    show (("ppt/slides/slide2.xml") == ("ppt/slides/slide1.xml")) = false from by decide,
    show (("ppt/slides/slide10.xml") == ("ppt/slides/slide1.xml")) = false from by decide,
    show (("ppt/slides/slide1.xml") == ("ppt/slides/slide1.xml")) = true from by decide,
    show (("ppt/slides/slide2.xml") == ("ppt/slides/slide2.xml")) = true from by decide,
    show (("ppt/slides/slide2.xml") == ("ppt/slides/slide10.xml")) = false from by decide,
    show (("ppt/slides/slide10.xml") == ("ppt/slides/slide10.xml")) = true from by decide]
  split
  · next hcond =>
    have hd := congrArg String.data hcond
    simp only [String.data_append] at hd
    simp at hd
    exact absurd (String.ext hd.1) (renderSlide_ne_empty env x1)
  · rfl

/-! Claim C7. -/

/-- C7, counterexample: a presentation package that opens and parses but
has no slide entries returns the Vietnamese marker of the source, which
is not the English literal the claim states. -/
theorem c7_counterexample :
    processPptxAsZip env0 ⟨("deck.pptx"),
        ("application/vnd.openxmlformats-officedocument.presentationml.presentation"), 0,
        .zip [⟨("docProps/core.xml"), false, 0, .raw ("x")⟩]⟩
      = (.ok ("(Không tìm thấy nội dung văn bản trong slide)"), 0)
    ∧ ("(Không tìm thấy nội dung văn bản trong slide)") ≠ ("(no text content found in slides)") :=
  ⟨rfl, by decide⟩

/-- C7 (amended): for every presentation package that opens and parses
successfully but contains no entries matching the slide pattern, the
extractor returns the literal marker of the source. -/
theorem c7_no_slides_marker (env : Env) (nm tp : String) (sz : Nat)
    (entries : List (ZEntry FileData))
    (hno : (entries.map (fun e => e.path)).filter containsSlidePath = []) :
    processPptxAsZip env ⟨nm, tp, sz, .zip entries⟩
      = (.ok ("(Không tìm thấy nội dung văn bản trong slide)"), 0) := by
  rw [processPptxAsZip_zip]
  simp only [slideFilesSorted]
  rw [hno]
  rfl

/-- C7 witness: the amended statement at a concrete slide-free
package. -/
theorem c7_witness :
    (([(⟨("docProps/core.xml"), false, 0, .raw ("x")⟩ : ZEntry FileData)].map
        (fun e => e.path)).filter containsSlidePath = [])
    ∧ processPptxAsZip env0 ⟨("deck2.pptx"), ("x"), 0,
        .zip [⟨("docProps/core.xml"), false, 0, .raw ("x")⟩]⟩
      = (.ok ("(Không tìm thấy nội dung văn bản trong slide)"), 0) :=
  ⟨by decide,
    c7_no_slides_marker env0 ("deck2.pptx") ("x") 0
      [⟨("docProps/core.xml"), false, 0, .raw ("x")⟩] (by decide)⟩

/-! Claim C8. -/

/-- C8: for every workbook routed to the spreadsheet decoder, the output
is the fold that emits, for each sheet in declared order, the Sheet
header line, the CSV rendering and a blank-line separator; on a two-sheet
workbook this is the first header and CSV followed by the second header
and CSV. -/
theorem c8_workbook_render (env : Env) (nm : String) (sz : Nat)
    (sheets : List (String × String)) (hx : jsEndsWith nm (".xlsx") = true) :
    processFile env ⟨nm,
        ("application/vnd.openxmlformats-officedocument.spreadsheetml.sheet"), sz,
        .workbook sheets⟩
      = (.ok (sheets.foldl (fun text s =>
          text ++ ("--- Sheet: ") ++ s.1 ++ (" ---\n") ++ s.2 ++ ("\n\n")) ("")), 0)
    ∧ ∀ n1 c1 n2 c2 : String,
        ([(n1, c1), (n2, c2)] : List (String × String)).foldl (fun text s =>
          text ++ ("--- Sheet: ") ++ s.1 ++ (" ---\n") ++ s.2 ++ ("\n\n")) ("")
        = ("--- Sheet: ") ++ n1 ++ (" ---\n") ++ c1 ++ ("\n\n") ++
          ("--- Sheet: ") ++ n2 ++ (" ---\n") ++ c2 ++ ("\n\n") := by
  constructor
  · exact processFile_spreadsheet env _ (classify_sheet_of hx) sheets rfl
  · intro n1 c1 n2 c2
    simp only [List.foldl]
    simp [String.append_assoc, String.empty_append]

/-- C8 witness: a concrete workbook with sheets Q1 and Q2. -/
theorem c8_witness :
    jsEndsWith ("book.xlsx") (".xlsx") = true
    ∧ (processFile env0 ⟨("book.xlsx"),
          ("application/vnd.openxmlformats-officedocument.spreadsheetml.sheet"), 4,
          .workbook [(("Q1"), ("a,b")), (("Q2"), ("c,d"))]⟩
        = (.ok (([(("Q1"), ("a,b")), (("Q2"), ("c,d"))] : List (String × String)).foldl
            (fun text s =>
              text ++ ("--- Sheet: ") ++ s.1 ++ (" ---\n") ++ s.2 ++ ("\n\n")) ("")), 0)
      ∧ ∀ n1 c1 n2 c2 : String,
          ([(n1, c1), (n2, c2)] : List (String × String)).foldl (fun text s =>
            text ++ ("--- Sheet: ") ++ s.1 ++ (" ---\n") ++ s.2 ++ ("\n\n")) ("")
          = ("--- Sheet: ") ++ n1 ++ (" ---\n") ++ c1 ++ ("\n\n") ++
            ("--- Sheet: ") ++ n2 ++ (" ---\n") ++ c2 ++ ("\n\n")) :=
  ⟨by decide,
    c8_workbook_render env0 ("book.xlsx") 4 [(("Q1"), ("a,b")), (("Q2"), ("c,d"))] (by decide)⟩
